import Mathlib

/-!
# Verification of the help-forum moderation logic of PygameCommunityBot

Shallow embedding of `pcbot/exts/helpforums_pre/__init__.py`.
Python strings are modelled as `List Char`; Discord entities are modelled as
structures carrying exactly the fields the embedded code reads.  Timestamps
are natural numbers (seconds).  Configuration constants that live in the
(absent) `constants` module are taken as parameters.
-/

namespace HelpForumsPre

/-- Python's `s.lower().startswith(p)` for a lowercase pattern `p`
(Python lowercases the string, then tests the prefix). -/
def lowerStartsWith (p s : List Char) : Bool :=
  p.isPrefixOf (s.map Char.toLower)

/-- Python's `tag.name.lower().startswith(tuple ps)`: true when some pattern in `ps`
is a prefix of the lowercased string. -/
def lowerStartsWithAny (ps : List (List Char)) (s : List Char) : Bool :=
  ps.any (fun p => lowerStartsWith p s)

/-- Embedding of `validate_regulars_help_forum_channel_thread_tags`
(`helpforums_pre/__init__.py`, lines 1060-1080).  The thread's applied tags
are given by their names.  Mirrors the source: `valid` starts true; when the
tag set is nonempty and carries no "solved"/"invalid"-prefixed tag, the
issue tags (prefix "issue") and aspect tags (prefix neither "issue" nor
"unsolved") are counted, and the thread is invalid when there is no issue
tag, more than one issue tag, or no aspect tag. -/
def validate_regulars_help_forum_channel_thread_tags
    (applied_tags : List (List Char)) : Bool :=
  if !applied_tags.isEmpty &&
      !applied_tags.any (lowerStartsWithAny ["solved".data, "invalid".data]) then
    let issue_tags := applied_tags.filter (fun t => lowerStartsWith "issue".data t)
    let aspect_tags := applied_tags.filter
      (fun t => !lowerStartsWithAny ["issue".data, "unsolved".data] t)
    !(issue_tags.length == 0 || issue_tags.length > 1 || aspect_tags.isEmpty)
  else
    true

/-- Embedding of the ✅-unpin guard of `on_raw_reaction_remove`
(`helpforums_pre/__init__.py`, lines 731-741).  `wcmCount` is the count of the
remaining ✅ reaction (`none` when no ✅ reaction remains); `byAdmin` is
`payload.member and payload.member.guild_permissions.administrator`.
The source guard is
`msg.pinned and (not wcm or wcm and (wcm.count < 4 or wcm.count < 2 and by_admin))`. -/
def unpin_on_reaction_remove (msgPinned : Bool) (wcmCount : Option Nat)
    (byAdmin : Bool) : Bool :=
  msgPinned &&
    (match wcmCount with
     | none => true
     | some c => decide (c < 4) || (decide (c < 2) && byAdmin))

/-- The canonical owner-id suffix `f"│{thread.owner_id}"`. -/
def owner_id_suffix (ownerId : Nat) : List Char :=
  '│' :: (toString ownerId).data

/-- Python's substring test `p in s`: some tail of `s` starts with `p`. -/
def isSubstringOf (p : List Char) : List Char → Bool
  | [] => p.isEmpty
  | c :: rest => p.isPrefixOf (c :: rest) || isSubstringOf p rest

/-- The guard `thread.name.endswith(owner_id_suffix) or str(thread.owner_id) in thread.name`
(lines 333-336, 591-594, 958-963). -/
def hasOwnerIdMark (name : List Char) (ownerId : Nat) : Bool :=
  (owner_id_suffix ownerId).isSuffixOf name
    || isSubstringOf ((toString ownerId).data) name

/-- The truncation expression
`thread.name if len(thread.name) < 72 else thread.name[:72] + "..."`
(lines 337-340, 596-599, 966-969). -/
def truncatedThreadName (name : List Char) : List Char :=
  if name.length < 72 then name else name.take 72 ++ "...".data

/-- The owner-suffix rule shared by `on_thread_create` (lines 332-341),
the archived-thread repair in `on_thread_update` (lines 591-600) and
`force_help_thread_archive_after_timeout` (lines 958-970): when the name
neither ends with the owner-id suffix nor contains the owner id, the
(possibly truncated) name gets the suffix appended; otherwise the name is
left unchanged. -/
def appendOwnerIdSuffix (name : List Char) (ownerId : Nat) : List Char :=
  if hasOwnerIdMark name ownerId then name
  else truncatedThreadName name ++ owner_id_suffix ownerId

/-- Python's `s.replace(pat, "")` for a pattern `pat`: removes every
(non-overlapping, leftmost-first) occurrence of `pat`.  For an empty pattern
Python would interleave empty replacements, i.e. change nothing when the
replacement is `""`; that case is mapped to the identity. -/
def removeOccurrences (pat : List Char) : List Char → List Char
  | [] => []
  | c :: rest =>
    if pat.isEmpty || !pat.isPrefixOf (c :: rest) then
      c :: removeOccurrences pat rest
    else
      removeOccurrences pat (rest.drop (pat.length - 1))
termination_by l => l.length
decreasing_by
  · simp
  · simp [List.length_drop]
    omega

/-- Worker for whitespace normalization: emits a single space before the next
word when whitespace was pending, drops trailing whitespace. -/
def collapseWsGo (pendingSpace : Bool) : List Char → List Char
  | [] => []
  | c :: rest =>
    if c.isWhitespace then collapseWsGo true rest
    else (if pendingSpace then [' '] else []) ++ c :: collapseWsGo false rest

/-- Python's `" ".join(s.split())`: words separated by single spaces, no
leading or trailing whitespace. -/
def pyNormWs (s : List Char) : List Char :=
  collapseWsGo false (s.dropWhile Char.isWhitespace)

/-- The normalization applied by the title rules (lines 1036-1038):
`" ".join(thread.name.replace(f"│{thread.owner_id}", "").split())` — remove
every occurrence of the canonical owner-id suffix, then normalize
whitespace. -/
def normalizeThreadName (name : List Char) (ownerId : Nat) : List Char :=
  pyNormWs (removeOccurrences (owner_id_suffix ownerId) name)

/-- Embedding of `get_help_forum_channel_thread_name_cautions`
(`helpforums_pre/__init__.py`, lines 1027-1041).  The configuration tables
`INVALID_HELP_THREAD_TITLE_TYPES` (ordered rule names),
`INVALID_HELP_THREAD_TITLE_SCANNING_ENABLED` and
`INVALID_HELP_THREAD_TITLE_REGEX_PATTERNS` live in a constants module that is
not part of the sources, so they are parameters here: `types` is the
configured rule order, `enabled` the enablement table, and
`patternMatches ct s` stands for
`INVALID_HELP_THREAD_TITLE_REGEX_PATTERNS[ct].search(s) is not None`. -/
def get_help_forum_channel_thread_name_cautions
    (types : List (List Char)) (enabled : List Char → Bool)
    (patternMatches : List Char → List Char → Bool)
    (name : List Char) (ownerId : Nat) : List (List Char) :=
  types.filter
    (fun ct => enabled ct && patternMatches ct (normalizeThreadName name ownerId))

/-- Embedding of `BadHelpThreadData` (`helpforums_pre/__init__.py`, lines 48-51):
the per-thread record kept while a title/tag violation is unresolved. -/
structure BadHelpThreadData where
  thread_id : Nat
  last_cautioned_ts : Nat
  caution_message_ids : Finset Nat
deriving DecidableEq

/-- The moderation state relevant to the flag/resolve round trip: the stored
bad-thread record for one thread (at most one row per thread id) and the set
of caution-message ids the bot has deleted so far. -/
structure ModerationState where
  badRec : Option BadHelpThreadData
  deletedMsgIds : Finset Nat
deriving DecidableEq

/-- Embedding of the flagging step of `on_thread_create` (lines 319-330):
when issues were found and no bad-thread record exists, a record is saved
whose `caution_message_ids` are exactly the ids of the caution messages just
sent. -/
def on_thread_create_flag (threadId now : Nat) (issuesFound : Bool)
    (sentIds : Finset Nat) (s : ModerationState) : ModerationState :=
  if issuesFound && s.badRec.isNone then
    { s with badRec := some ⟨threadId, now, sentIds⟩ }
  else s

/-- Embedding of the resolution branch of `on_thread_update`
(lines 452-494): when a bad-thread record exists, the updater is not the bot,
no title caution fires on the new name, and (for the regulars forum) the tag
set validates, every message id stored in the record is deleted and then the
record itself is deleted. -/
def on_thread_update_resolve
    (types : List (List Char)) (enabled : List Char → Bool)
    (patternMatches : List Char → List Char → Bool)
    (updaterIsBot isRegulars : Bool) (name : List Char) (ownerId : Nat)
    (tags : List (List Char)) (s : ModerationState) : ModerationState :=
  match s.badRec with
  | some r =>
    if !updaterIsBot &&
        (get_help_forum_channel_thread_name_cautions
          types enabled patternMatches name ownerId).isEmpty &&
        !(isRegulars && !validate_regulars_help_forum_channel_thread_tags tags)
    then
      { badRec := none,
        deletedMsgIds := s.deletedMsgIds ∪ r.caution_message_ids }
    else s
  | none => s

/-- Embedding of `InactiveHelpThreadData` (`helpforums_pre/__init__.py`, lines 54-57). -/
structure InactiveHelpThreadData where
  thread_id : Nat
  last_active_ts : Nat
  alert_message_id : Option Nat
deriving DecidableEq

/-- The fields of a Discord thread read by the sweeps. -/
structure HelpThread where
  id : Nat
  owner_id : Nat
  created_at : Option Nat
  locked : Bool
  pinned : Bool
  archived : Bool
  archiver_id : Option Nat
  applied_tags : List (List Char)
deriving DecidableEq

/-- The solved-tag test `tag.name.lower().startswith("solved") for tag in applied_tags`. -/
def solvedTagApplied (tags : List (List Char)) : Bool :=
  tags.any (lowerStartsWith "solved".data)

/-- The environment one iteration of `inactive_help_thread_alert` observes for
one thread: the clock, the fetched last-activity timestamp, the stored
inactivity row, the permission table used on the archiver, the id/timestamp
the alert message would get, the snowflake-derived creation time of a partial
message, and the fetched last message (creation time, `is_system()`). -/
structure InactiveSweepEnv where
  now : Nat
  lastActive : Nat
  storedRec : Option InactiveHelpThreadData
  managesThreads : Nat → Bool
  alertMsgId : Nat
  alertMsgTs : Nat
  msgCreatedTs : Nat → Nat
  lastMsg : Option (Nat × Bool)

/-- What one iteration of the inactivity sweep did: whether the inactivity
alert embed was posted, the stored row afterwards, and whether a previously
posted alert message was deleted. -/
structure InactiveIterResult where
  alertPosted : Bool
  db : Option InactiveHelpThreadData
  deletedAlert : Bool
deriving DecidableEq

/-- Embedding of the `elif` arm of `inactive_help_thread_alert`
(lines 854-889): when a stored row holds an `alert_message_id` whose message
is older than the observed last activity, and the fetched last message is not
a system message, the alert message is deleted and the row rewritten with the
fresh `last_active_ts` and no `alert_message_id`. -/
def inactive_alert_cleanup_branch (t : HelpThread) (env : InactiveSweepEnv) :
    InactiveIterResult :=
  match env.storedRec with
  | some r =>
    match r.alert_message_id with
    | some amid =>
      if env.msgCreatedTs amid < env.lastActive then
        match env.lastMsg with
        | some lm =>
          if !lm.2 then ⟨false, some ⟨t.id, lm.1, none⟩, true⟩
          else ⟨false, env.storedRec, false⟩
        | none => ⟨false, env.storedRec, false⟩
      else ⟨false, env.storedRec, false⟩
    | none => ⟨false, env.storedRec, false⟩
  | none => ⟨false, env.storedRec, false⟩

/-- Embedding of one thread's iteration of `inactive_help_thread_alert`
(lines 786-892).  Threads without a creation time are skipped; locked,
pinned or solved threads are left alone; otherwise, when the observed last
activity is more than 23h30m old, no stored row is at least as fresh, and the
alert is not suppressed (thread archived by its owner or by a member with
`manage_threads` on the forum), the alert is posted and the row upserted with
the alert message's timestamp and id; when the thread is NOT stale the
cleanup arm runs instead. -/
def inactive_help_thread_alert_iter (t : HelpThread) (env : InactiveSweepEnv) :
    InactiveIterResult :=
  match t.created_at with
  | none => ⟨false, env.storedRec, false⟩
  | some _ =>
    if !(t.locked || t.pinned || solvedTagApplied t.applied_tags) then
      if env.now - env.lastActive > 3600 * 23 + 1800 then
        if (match env.storedRec with
            | none => true
            | some r => decide (r.last_active_ts < env.lastActive)) then
          if !(t.archived &&
              (match t.archiver_id with
               | none => false
               | some aid => (aid == t.owner_id) || env.managesThreads aid)) then
            ⟨true, some ⟨t.id, env.alertMsgTs, some env.alertMsgId⟩, false⟩
          else ⟨false, env.storedRec, false⟩
        else ⟨false, env.storedRec, false⟩
      else inactive_alert_cleanup_branch t env
    else ⟨false, env.storedRec, false⟩

/-- A thread message as read by `help_thread_deletion_checks`:
whether `author.bot` holds and whether `type == discord.MessageType.default`
(a non-default type is a system message). -/
structure ThreadMessage where
  authorIsBot : Bool
  isDefaultType : Bool
deriving DecidableEq

/-- The externally visible actions of `help_thread_deletion_checks`. -/
inductive DeletionAction
  | sendWarning
  | sleepSeconds (s : Nat)
  | deleteThread
deriving DecidableEq

/-- The counting loop of `help_thread_deletion_checks` (lines 982-993):
walk the (already limit-truncated) history, count messages that are neither
bot-authored nor system messages, and break as soon as the count reaches
`THREAD_DELETION_MESSAGE_THRESHOLD`. -/
def scanMemberMsgs (threshold acc : Nat) : List ThreadMessage → Nat
  | [] => acc
  | m :: rest =>
    if !m.authorIsBot && m.isDefaultType then
      if threshold ≤ acc + 1 then acc + 1
      else scanMemberMsgs threshold (acc + 1) rest
    else scanMemberMsgs threshold acc rest

/-- Embedding of `help_thread_deletion_checks` (lines 980-1012).  `history`
is the thread's message list, most recent first; the iteration is limited to
`max(thread.message_count, 100)` messages.  When fewer member messages than
`THREAD_DELETION_MESSAGE_THRESHOLD` are counted, the bot sends a deletion
warning, sleeps 300 seconds and deletes the thread; otherwise it does
nothing.  The threshold is a configuration constant of the absent constants
module, kept as a parameter. -/
def help_thread_deletion_checks (threshold messageCount : Nat)
    (history : List ThreadMessage) : List DeletionAction :=
  if scanMemberMsgs threshold 0 (history.take (max messageCount 100))
      < threshold then
    [.sendWarning, .sleepSeconds 300, .deleteThread]
  else []

/-- The scan set as the claim words it: the member-message count found among
up to `max(message_count, 100)` MOST RECENT NON-BOT NON-SYSTEM messages,
i.e. the limit applied after filtering. -/
def claimed_scanned_member_count (messageCount : Nat)
    (history : List ThreadMessage) : Nat :=
  ((history.filter (fun m => !m.authorIsBot && m.isDefaultType)).take
    (max messageCount 100)).length

/-- Embedding of `discord.HTTPException` and the subclasses the handlers distinguish:
`discord.NotFound`, `discord.Forbidden`, and the remaining platform errors
(server errors / rate limits).  Every platform-request failure raised by the
client library is one of these. -/
inductive DiscordError
  | notFound
  | forbidden
  | serverError
deriving DecidableEq

/-- The `try: ... except discord.HTTPException: pass` wrapper that
`inactive_help_thread_alert` (lines 786, 891-892) and
`force_help_thread_archive_after_timeout` (lines 928, 977-978) put around one
thread's iteration: every platform error is swallowed. -/
def catchHTTPException (r : Except DiscordError Unit) :
    Except DiscordError Unit :=
  match r with
  | .ok _ => .ok ()
  | .error _ => .ok ()

/-- A sweep's `for help_thread in ...:` loop: the per-iteration handler wraps
each thread's body; an error that escapes the handler aborts the loop, so
the remaining threads are not processed.  Returns the processed threads. -/
def sweepRun (handler : Except DiscordError Unit → Except DiscordError Unit)
    (body : Nat → Except DiscordError Unit) :
    List Nat → Except DiscordError (List Nat)
  | [] => .ok []
  | t :: rest =>
    match handler (body t) with
    | .ok _ =>
      match sweepRun handler body rest with
      | .ok ts => .ok (t :: ts)
      | .error e => .error e
    | .error e => .error e

/-- The per-thread loop of `inactive_help_thread_alert` (lines 782-892):
the whole iteration body sits inside `try: ... except discord.HTTPException:
pass`. -/
def inactive_alert_sweep (body : Nat → Except DiscordError Unit)
    (threads : List Nat) : Except DiscordError (List Nat) :=
  sweepRun catchHTTPException body threads

/-- The per-thread loop of `force_help_thread_archive_after_timeout`
(lines 927-978): likewise wrapped in `except discord.HTTPException`. -/
def archive_timeout_sweep (body : Nat → Except DiscordError Unit)
    (threads : List Nat) : Except DiscordError (List Nat) :=
  sweepRun catchHTTPException body threads

/-- One thread's iteration of `delete_help_threads_without_starter_message`
(lines 900-915): only the starter-message fetch is guarded, and only against
`discord.NotFound` (which routes into the deletion check, itself internally
error-catching, spawned as a task); any other platform error escapes the
iteration. -/
def starter_message_check_iter (fetchStarter : Except DiscordError Unit) :
    Except DiscordError Unit :=
  match fetchStarter with
  | .ok _ => .ok ()
  | .error .notFound => .ok ()
  | .error e => .error e

/-- The per-thread loop of `delete_help_threads_without_starter_message`
(lines 894-915): no per-iteration catch-all, only the NotFound guard of
`starter_message_check_iter`. -/
def delete_without_starter_sweep
    (fetchStarter : Nat → Except DiscordError Unit)
    (threads : List Nat) : Except DiscordError (List Nat) :=
  sweepRun (fun r => r) (fun t => starter_message_check_iter (fetchStarter t))
    threads

/-- Modelled from the spec: the table schema lives in the `migrations` module,
which is not under `src/`; the spec says both tables are "keyed by thread id"
with "at most one record per thread id", so `thread_id` is the unique key and
`INSERT ... ON CONFLICT DO UPDATE SET ... WHERE <table>.thread_id ==
:thread_id` updates the existing row for that thread id when one exists and
inserts a fresh row otherwise.  The table itself is a bare row list, so that
uniqueness is a property, not a construction. -/
def upsertByThreadId {α : Type} (threadIdOf : α → Nat) (table : List α)
    (r : α) : List α :=
  if table.any (fun q => threadIdOf q == threadIdOf r) then
    table.map (fun q => if threadIdOf q == threadIdOf r then r else q)
  else table ++ [r]

/-- The statement `DELETE FROM <table> WHERE <table>.thread_id == :thread_id`: removes
every row carrying the given thread id. -/
def deleteByThreadId {α : Type} (threadIdOf : α → Nat) (table : List α)
    (tid : Nat) : List α :=
  table.filter (fun q => threadIdOf q != tid)

/-- Embedding of `save_bad_help_thread_data` (lines 137-158): keyed upsert on
`thread_id`. -/
def save_bad_help_thread_data (table : List BadHelpThreadData)
    (r : BadHelpThreadData) : List BadHelpThreadData :=
  upsertByThreadId BadHelpThreadData.thread_id table r

/-- Embedding of `delete_bad_help_thread_data` (lines 160-170): delete by `thread_id`. -/
def delete_bad_help_thread_data (table : List BadHelpThreadData)
    (tid : Nat) : List BadHelpThreadData :=
  deleteByThreadId BadHelpThreadData.thread_id table tid

/-- Embedding of `save_inactive_help_thread_data` (lines 217-239): keyed upsert on
`thread_id`. -/
def save_inactive_help_thread_data (table : List InactiveHelpThreadData)
    (r : InactiveHelpThreadData) : List InactiveHelpThreadData :=
  upsertByThreadId InactiveHelpThreadData.thread_id table r

/-- Embedding of `delete_inactive_help_thread_data` (lines 241-251): delete by
`thread_id`. -/
def delete_inactive_help_thread_data (table : List InactiveHelpThreadData)
    (tid : Nat) : List InactiveHelpThreadData :=
  deleteByThreadId InactiveHelpThreadData.thread_id table tid

end HelpForumsPre

namespace HelpForumsPre

/-- C1: the tag validator accepts a tag set with exactly one "issue" tag and
FOUR aspect tags (no "solved"/"invalid" tag present).  The claim — and the
bot's own caution text, which demands "exactly 1 issue tag and 1-3 aspect
tags" — requires such a set to be rejected, but the source never checks the
upper bound on aspect tags and returns true here. -/
theorem C1_validator_accepts_four_aspect_tags :
    validate_regulars_help_forum_channel_thread_tags
      ["issue: rework".data, "collisions".data, "events".data,
        "display".data, "sound".data] = true := by
  decide

/-- C10: the ✅-unpin decision of `on_raw_reaction_remove` does not depend on
the remover's admin flag: it equals the guard "message pinned, and no ✅
reaction remains or its count is below 4", so two runs differing only in the
admin flag decide alike. -/
theorem C10_unpin_admin_independent (p : Bool) (w : Option Nat) (a₁ a₂ : Bool) :
    unpin_on_reaction_remove p w a₁ = unpin_on_reaction_remove p w a₂ ∧
      unpin_on_reaction_remove p w a₁ =
        (p && (match w with | none => true | some c => decide (c < 4))) := by
  have key : ∀ a : Bool, ∀ c : Nat,
      (decide (c < 4) || (decide (c < 2) && a)) = decide (c < 4) := by
    intro a c
    by_cases h2 : c < 2
    · have h4 : c < 4 := by omega
      simp [h2, h4]
    · simp [h2]
  cases w with
  | none => exact ⟨rfl, rfl⟩
  | some c =>
      refine ⟨?_, ?_⟩ <;> simp only [unpin_on_reaction_remove, key]

/-- A list is recognised by `isPrefixOf` as a prefix of itself followed by
anything. -/
lemma isPrefixOf_append_self {α : Type} [BEq α] [LawfulBEq α]
    (l r : List α) : l.isPrefixOf (l ++ r) = true := by
  induction l with
  | nil => simp [List.isPrefixOf]
  | cons a t ih => simp [List.isPrefixOf, ih]

/-- A list is recognised by `isSuffixOf` as a suffix of anything followed by
itself. -/
lemma isSuffixOf_append_self {α : Type} [BEq α] [LawfulBEq α]
    (t s : List α) : s.isSuffixOf (t ++ s) = true := by
  simp [List.isSuffixOf, List.reverse_append, isPrefixOf_append_self]

/-- C5: the owner-suffix rule is a no-op on names that already carry the
owner-id mark — in particular on names that already end with the canonical
suffix — and is therefore idempotent: applying it twice equals applying it
once. -/
theorem C5_owner_suffix_rule_idempotent (name : List Char) (ownerId : Nat) :
    ((owner_id_suffix ownerId).isSuffixOf name = true →
        appendOwnerIdSuffix name ownerId = name) ∧
      appendOwnerIdSuffix (appendOwnerIdSuffix name ownerId) ownerId =
        appendOwnerIdSuffix name ownerId := by
  constructor
  · intro hsfx
    unfold appendOwnerIdSuffix hasOwnerIdMark
    simp [hsfx]
  · by_cases h : hasOwnerIdMark name ownerId
    · simp [appendOwnerIdSuffix, h]
    · have h1 : appendOwnerIdSuffix name ownerId =
          truncatedThreadName name ++ owner_id_suffix ownerId := by
        simp [appendOwnerIdSuffix, h]
      have h2 : hasOwnerIdMark
          (truncatedThreadName name ++ owner_id_suffix ownerId) ownerId = true := by
        unfold hasOwnerIdMark
        simp [isSuffixOf_append_self]
      rw [h1]
      simp [appendOwnerIdSuffix, h2]

/-- C5 witness: applying the rule to a name that is exactly the canonical
suffix of owner 5 leaves it unchanged. -/
theorem C5_owner_suffix_rule_idempotent_witness :
    appendOwnerIdSuffix (owner_id_suffix 5) 5 = owner_id_suffix 5 :=
  (C5_owner_suffix_rule_idempotent (owner_id_suffix 5) 5).1 (by decide)

/-- C6 counterexample: for a 72-character name (owner 1, no owner-id mark
present), the portion of the edited name that precedes the appended marker has
75 characters — the source keeps the first 72 characters AND adds "..." — so
no decomposition of the result leaves a free-text portion of at most 72
characters before the marker.  This refutes the claim that the free-text
portion is truncated to at most 72 characters. -/
theorem C6_counterexample :
    ¬ ∃ t : List Char,
        appendOwnerIdSuffix (List.replicate 72 'a') 1 = t ++ owner_id_suffix 1 ∧
          t.length ≤ 72 := by
  rintro ⟨t, heq, hle⟩
  have hres : (appendOwnerIdSuffix (List.replicate 72 'a') 1).length = 77 := by
    decide
  have hsfx : (owner_id_suffix 1).length = 2 := by decide
  rw [heq, List.length_append, hsfx] at hres
  omega

/-- C6 (amended): whenever the owner-id marker is re-appended, the free-text
portion placed before the marker is `truncatedThreadName`: the name unchanged
when shorter than 72 characters, otherwise its first 72 characters followed by
an ellipsis "..." — hence at most 75 characters. -/
theorem C6_truncation_before_append (name : List Char) (ownerId : Nat)
    (h : hasOwnerIdMark name ownerId = false) :
    appendOwnerIdSuffix name ownerId =
        truncatedThreadName name ++ owner_id_suffix ownerId ∧
      (truncatedThreadName name).length ≤ 75 ∧
      (name.length < 72 → truncatedThreadName name = name) := by
  refine ⟨by simp [appendOwnerIdSuffix, h], ?_, ?_⟩
  · unfold truncatedThreadName
    split
    · omega
    · simp only [List.length_append, List.length_take, List.length_cons,
        List.length_nil]
      omega
  · intro hlt
    simp [truncatedThreadName, hlt]

/-- C4: for every thread name and owner id, the title classifier returns
exactly the enabled rules whose pattern matches the owner-suffix-stripped,
whitespace-normalized name, and it lists them in the configured rule order
(its output is a sublist of `types`); several rules may match at once. -/
theorem C4_title_classifier_characterization
    (types : List (List Char)) (enabled : List Char → Bool)
    (patternMatches : List Char → List Char → Bool)
    (name : List Char) (ownerId : Nat) :
    (∀ ct, ct ∈ get_help_forum_channel_thread_name_cautions
        types enabled patternMatches name ownerId ↔
      ct ∈ types ∧ enabled ct = true ∧
        patternMatches ct (normalizeThreadName name ownerId) = true) ∧
      (get_help_forum_channel_thread_name_cautions
        types enabled patternMatches name ownerId).Sublist types := by
  constructor
  · intro ct
    simp [get_help_forum_channel_thread_name_cautions, List.mem_filter,
      and_assoc]
  · exact List.filter_sublist _

/-- C3: round trip — flag a thread on creation (record saved with exactly the
sent caution-message ids), then resolve it via a non-bot edit after which no
title caution fires and the tags validate: afterwards no bad-thread record
remains and the sent caution-message ids minus the deleted ids are empty. -/
theorem C3_flag_resolve_roundtrip
    (types : List (List Char)) (enabled : List Char → Bool)
    (patternMatches : List Char → List Char → Bool)
    (threadId now : Nat) (sentIds : Finset Nat)
    (name : List Char) (ownerId : Nat) (tags : List (List Char))
    (isRegulars : Bool)
    (hname : get_help_forum_channel_thread_name_cautions
      types enabled patternMatches name ownerId = [])
    (htags : validate_regulars_help_forum_channel_thread_tags tags = true) :
    (on_thread_update_resolve types enabled patternMatches false isRegulars
        name ownerId tags
        (on_thread_create_flag threadId now true sentIds ⟨none, ∅⟩)).badRec
        = none ∧
      sentIds \
        (on_thread_update_resolve types enabled patternMatches false isRegulars
          name ownerId tags
          (on_thread_create_flag threadId now true sentIds
            ⟨none, ∅⟩)).deletedMsgIds = ∅ := by
  have hflag : on_thread_create_flag threadId now true sentIds ⟨none, ∅⟩ =
      ⟨some ⟨threadId, now, sentIds⟩, ∅⟩ := by
    simp [on_thread_create_flag]
  rw [hflag]
  simp [on_thread_update_resolve, hname, htags, Finset.empty_union,
    Finset.sdiff_self]

/-- C3 witness: the round trip at a concrete input (no configured title
rules, empty tag set, two caution messages 11 and 12). -/
theorem C3_flag_resolve_roundtrip_witness :
    (on_thread_update_resolve [] (fun _ => true) (fun _ _ => true) false true
        "hi".data 42 [] (on_thread_create_flag 7 1000 true {11, 12}
          ⟨none, ∅⟩)).badRec = none ∧
      ({11, 12} : Finset Nat) \
        (on_thread_update_resolve [] (fun _ => true) (fun _ _ => true) false
          true "hi".data 42 [] (on_thread_create_flag 7 1000 true {11, 12}
            ⟨none, ∅⟩)).deletedMsgIds = ∅ :=
  C3_flag_resolve_roundtrip [] (fun _ => true) (fun _ _ => true) 7 1000
    {11, 12} "hi".data 42 [] true (by rfl) (by rfl)

/-- No arm of the cleanup branch posts an inactivity alert. -/
lemma cleanup_branch_not_posted (t : HelpThread) (env : InactiveSweepEnv) :
    (inactive_alert_cleanup_branch t env).alertPosted = false := by
  unfold inactive_alert_cleanup_branch
  repeat' split
  all_goals rfl

/-- Whenever the iteration posts the alert, the stored row afterwards is the
freshly upserted one (the alert message's timestamp and id). -/
lemma inactive_iter_db_when_posted (t : HelpThread) (env : InactiveSweepEnv) :
    (inactive_help_thread_alert_iter t env).alertPosted = true →
      (inactive_help_thread_alert_iter t env).db =
        some ⟨t.id, env.alertMsgTs, some env.alertMsgId⟩ := by
  unfold inactive_help_thread_alert_iter
  repeat' split
  all_goals intro h
  all_goals simp_all [cleanup_branch_not_posted]

/-- The no-solved-tag condition, element-wise. -/
lemma solvedTagApplied_eq_false_iff (tags : List (List Char)) :
    solvedTagApplied tags = false ↔
      ∀ tg ∈ tags, lowerStartsWith "solved".data tg = false := by
  simp [solvedTagApplied]

/-- The record-staleness check, as a property of the optional stored row. -/
lemma staleCheck_eq_true_iff (rec : Option InactiveHelpThreadData) (la : Nat) :
    (match rec with
      | none => true
      | some r => decide (r.last_active_ts < la)) = true ↔
      ∀ r, rec = some r → r.last_active_ts < la := by
  cases rec <;> simp

/-- The suppression check, as a property of the archiver. -/
lemma suppression_eq_false_iff (t : HelpThread) (env : InactiveSweepEnv) :
    (t.archived && (match t.archiver_id with
       | none => false
       | some aid => (aid == t.owner_id) || env.managesThreads aid)) = false ↔
      ¬(t.archived = true ∧ ∃ aid, t.archiver_id = some aid ∧
          (aid = t.owner_id ∨ env.managesThreads aid = true)) := by
  obtain ⟨id, owner, created, locked, pinned, archived, archiver, tags⟩ := t
  cases archived <;> cases archiver <;> simp

/-- C2: one iteration of the hourly inactivity sweep posts the alert and
upserts the inactivity row exactly when the thread is not locked, not pinned,
carries no "solved"-prefixed tag, its observed last activity is more than
23h30m old, no stored row is at least as fresh as that activity, and the
alert is not suppressed by the thread having been archived by its owner or by
a member with `manage_threads` on the forum. -/
theorem C2_inactivity_alert_iff (t : HelpThread) (env : InactiveSweepEnv)
    (c : Nat) (hc : t.created_at = some c) :
    ((inactive_help_thread_alert_iter t env).alertPosted = true ∧
        (inactive_help_thread_alert_iter t env).db =
          some ⟨t.id, env.alertMsgTs, some env.alertMsgId⟩) ↔
      (t.locked = false ∧ t.pinned = false ∧
        (∀ tg ∈ t.applied_tags, lowerStartsWith "solved".data tg = false) ∧
        env.now - env.lastActive > 3600 * 23 + 1800 ∧
        (∀ r, env.storedRec = some r → r.last_active_ts < env.lastActive) ∧
        ¬(t.archived = true ∧ ∃ aid, t.archiver_id = some aid ∧
            (aid = t.owner_id ∨ env.managesThreads aid = true))) := by
  have hposted : (inactive_help_thread_alert_iter t env).alertPosted = true ↔
      (!(t.locked || t.pinned || solvedTagApplied t.applied_tags) = true ∧
        (env.now - env.lastActive > 3600 * 23 + 1800) ∧
        (match env.storedRec with
          | none => true
          | some r => decide (r.last_active_ts < env.lastActive)) = true ∧
        (t.archived && (match t.archiver_id with
          | none => false
          | some aid => (aid == t.owner_id) || env.managesThreads aid))
          = false) := by
    unfold inactive_help_thread_alert_iter
    rw [hc]
    split_ifs with h1 h2 h3 h4 <;>
      simp_all [cleanup_branch_not_posted] <;>
      (intro h5
       rcases h4 with h4 | h4
       · simp_all
       · exact h4)
  constructor
  · rintro ⟨hp, -⟩
    have hconds := hposted.mp hp
    obtain ⟨hflags, htime, hstale, hsuppr⟩ := hconds
    have hflags' : (t.locked = false ∧ t.pinned = false) ∧
        solvedTagApplied t.applied_tags = false := by
      simpa using hflags
    exact ⟨hflags'.1.1, hflags'.1.2,
      (solvedTagApplied_eq_false_iff _).mp hflags'.2, htime,
      (staleCheck_eq_true_iff _ _).mp hstale,
      (suppression_eq_false_iff t env).mp hsuppr⟩
  · rintro ⟨hlk, hpin, hsolved, htime, hstale, hsuppr⟩
    have hp : (inactive_help_thread_alert_iter t env).alertPosted = true := by
      refine hposted.mpr ⟨?_, htime, ?_, ?_⟩
      · simp [hlk, hpin, (solvedTagApplied_eq_false_iff _).mpr hsolved]
      · exact (staleCheck_eq_true_iff _ _).mpr hstale
      · exact (suppression_eq_false_iff t env).mpr hsuppr
    exact ⟨hp, inactive_iter_db_when_posted t env hp⟩

/-- C2 witness: the iff at a concrete stale, unmarked, unarchived thread. -/
theorem C2_inactivity_alert_iff_witness :
    (((inactive_help_thread_alert_iter
          ⟨7, 42, some 0, false, false, false, none, []⟩
          ⟨100000, 0, none, fun _ => false, 9, 100001, fun _ => 0,
            none⟩).alertPosted = true ∧
        (inactive_help_thread_alert_iter
          ⟨7, 42, some 0, false, false, false, none, []⟩
          ⟨100000, 0, none, fun _ => false, 9, 100001, fun _ => 0,
            none⟩).db = some ⟨7, 100001, some 9⟩) ↔
      (false = false ∧ false = false ∧
        (∀ tg ∈ ([] : List (List Char)),
          lowerStartsWith "solved".data tg = false) ∧
        100000 - 0 > 3600 * 23 + 1800 ∧
        (∀ r, (none : Option InactiveHelpThreadData) = some r →
          r.last_active_ts < 0) ∧
        ¬(false = true ∧ ∃ aid, (none : Option Nat) = some aid ∧
            (aid = 42 ∨ (fun (_ : Nat) => false) aid = true)))) :=
  C2_inactivity_alert_iff
    ⟨7, 42, some 0, false, false, false, none, []⟩
    ⟨100000, 0, none, fun _ => false, 9, 100001, fun _ => 0, none⟩ 0 rfl

/-- C6 witness: the amended statement at the concrete 72-character name and
owner 1. -/
theorem C6_truncation_before_append_witness :
    appendOwnerIdSuffix (List.replicate 72 'a') 1 =
        truncatedThreadName (List.replicate 72 'a') ++ owner_id_suffix 1 ∧
      (truncatedThreadName (List.replicate 72 'a')).length ≤ 75 ∧
      ((List.replicate 72 'a').length < 72 →
        truncatedThreadName (List.replicate 72 'a') = List.replicate 72 'a') :=
  C6_truncation_before_append (List.replicate 72 'a') 1 (by decide)

/-- The break-at-threshold loop decides the comparison exactly as the full
filtered count would. -/
lemma scanMemberMsgs_lt_iff (threshold : Nat) (l : List ThreadMessage) :
    ∀ acc, (scanMemberMsgs threshold acc l < threshold ↔
      acc + (l.filter (fun m => !m.authorIsBot && m.isDefaultType)).length
        < threshold) := by
  induction l with
  | nil => intro acc; simp [scanMemberMsgs]
  | cons m rest ih =>
    intro acc
    by_cases hm : (!m.authorIsBot && m.isDefaultType) = true
    · by_cases hb : threshold ≤ acc + 1
      · simp only [scanMemberMsgs, hm, if_true, hb, List.filter_cons_of_pos,
          List.length_cons]
        omega
      · simp only [scanMemberMsgs, hm, if_true, hb, if_false,
          List.filter_cons_of_pos, List.length_cons, ih (acc + 1)]
        omega
    · simp only [scanMemberMsgs, hm, Bool.false_eq_true, if_false,
        List.filter_cons_of_neg, ih acc]
      simp [List.filter_cons, hm]

/-- C7 counterexample: with `message_count = 0` (history limit 100) and a
history of 100 bot messages followed by one member message, the scan the
claim describes (limit applied to non-bot, non-system messages) finds 1
member message, but the code's loop — whose limit applies to raw messages
— counts 0 and (for threshold 1) schedules the 5-minute deletion, whereas
under the claim's reading the count (1) is not below the threshold and the
thread would be left unchanged. -/
theorem C7_counterexample :
    claimed_scanned_member_count 0
        (List.replicate 100 (⟨true, true⟩ : ThreadMessage) ++ [(⟨false, true⟩ : ThreadMessage)]) = 1 ∧
      scanMemberMsgs 1 0
        ((List.replicate 100 (⟨true, true⟩ : ThreadMessage) ++ [(⟨false, true⟩ : ThreadMessage)]).take
          (max 0 100)) = 0 ∧
      help_thread_deletion_checks 1 0
        (List.replicate 100 (⟨true, true⟩ : ThreadMessage) ++ [(⟨false, true⟩ : ThreadMessage)]) =
        [.sendWarning, .sleepSeconds 300, .deleteThread] := by
  refine ⟨by decide, by decide, by decide⟩

/-- C7 (amended): `help_thread_deletion_checks` takes the
`max(message_count, 100)` most recent messages of the thread, counts the
non-bot, default-type (member-authored) ones among them, and exactly when
that count is below the deletion threshold it posts a deletion warning,
waits 300 seconds and deletes the thread; otherwise it leaves the thread
unchanged. -/
theorem C7_deletion_check_behavior (threshold messageCount : Nat)
    (history : List ThreadMessage) :
    help_thread_deletion_checks threshold messageCount history =
      if ((history.take (max messageCount 100)).filter
            (fun m => !m.authorIsBot && m.isDefaultType)).length < threshold
      then [.sendWarning, .sleepSeconds 300, .deleteThread]
      else [] := by
  unfold help_thread_deletion_checks
  have h := scanMemberMsgs_lt_iff threshold
    (history.take (max messageCount 100)) 0
  rw [Nat.zero_add] at h
  simp only [h]

/-- A sweep whose per-iteration handler is the catch-all
`except discord.HTTPException` processes every thread and never propagates an
error. -/
lemma sweepRun_catchAll_ok (body : Nat → Except DiscordError Unit) :
    ∀ threads : List Nat, sweepRun catchHTTPException body threads
      = .ok threads := by
  intro threads
  induction threads with
  | nil => rfl
  | cons t rest ih =>
      unfold sweepRun
      cases hb : body t <;> simp [catchHTTPException, hb, ih]

/-- C8 counterexample: in the starter-message-deletion sweep, a platform
error other than NotFound (here `discord.Forbidden` while fetching thread 1's
starter message) is NOT caught inside that thread's iteration — it
propagates, aborting the sweep before thread 2 is processed.  This refutes
the claim that in each of the three hourly sweeps any error raised while
processing one thread is caught inside that iteration. -/
theorem C8_counterexample :
    delete_without_starter_sweep
        (fun t => if t = 1 then .error .forbidden else .ok ()) [1, 2] =
      .error .forbidden := by
  rfl

/-- C8 (amended): in the inactivity-alert and archive-timeout sweeps any
platform error in one thread's iteration is caught there and every thread is
processed; the starter-message-deletion sweep behaves that way only when each
thread's starter fetch fails with nothing but NotFound. -/
theorem C8_sweep_error_isolation
    (alertBody archiveBody fetchStarter : Nat → Except DiscordError Unit)
    (threads : List Nat)
    (hfetch : ∀ t ∈ threads, ∀ e, fetchStarter t = .error e →
      e = DiscordError.notFound) :
    inactive_alert_sweep alertBody threads = .ok threads ∧
      archive_timeout_sweep archiveBody threads = .ok threads ∧
      delete_without_starter_sweep fetchStarter threads = .ok threads := by
  refine ⟨sweepRun_catchAll_ok alertBody threads,
    sweepRun_catchAll_ok archiveBody threads, ?_⟩
  induction threads with
  | nil => rfl
  | cons t rest ih =>
      have hiter : starter_message_check_iter (fetchStarter t) = .ok () := by
        cases hf : fetchStarter t with
        | ok u => cases u; rfl
        | error e =>
            have he : e = DiscordError.notFound :=
              hfetch t (by simp) e hf
            subst he
            rfl
      have hrest : delete_without_starter_sweep fetchStarter rest
          = .ok rest := by
        refine ih ?_
        intro t' ht' e he
        exact hfetch t' (by simp [ht']) e he
      have hrest' : sweepRun (fun r => r)
          (fun t => starter_message_check_iter (fetchStarter t)) rest
          = .ok rest := hrest
      unfold delete_without_starter_sweep
      unfold sweepRun
      simp [hiter, hrest']

/-- The keyed upsert never duplicates a thread id: updating in place keeps
the id column unchanged, inserting adds an id not yet present. -/
lemma upsertByThreadId_nodup {α : Type} (threadIdOf : α → Nat)
    (table : List α) (r : α) (h : (table.map threadIdOf).Nodup) :
    ((upsertByThreadId threadIdOf table r).map threadIdOf).Nodup := by
  unfold upsertByThreadId
  by_cases hex : (table.any fun q => threadIdOf q == threadIdOf r) = true
  · rw [if_pos hex]
    have hsame :
        (table.map (fun q =>
          if threadIdOf q == threadIdOf r then r else q)).map threadIdOf =
          table.map threadIdOf := by
      rw [List.map_map]
      apply List.map_congr_left
      intro q hq
      by_cases hq' : (threadIdOf q == threadIdOf r) = true
      · have heq : threadIdOf q = threadIdOf r := by simpa using hq'
        simp [hq', heq]
      · have hne : threadIdOf q ≠ threadIdOf r := by simpa using hq'
        simp [hq', hne]
    rw [hsame]
    exact h
  · rw [if_neg hex]
    have hnotin : threadIdOf r ∉ table.map threadIdOf := by
      intro hmem
      obtain ⟨q, hq, heq⟩ := List.mem_map.mp hmem
      apply hex
      rw [List.any_eq_true]
      exact ⟨q, hq, by simp [heq]⟩
    rw [List.map_append]
    simp [List.nodup_append, h, hnotin]

/-- Deleting by thread id keeps the id column duplicate-free (it only removes
rows). -/
lemma deleteByThreadId_nodup {α : Type} (threadIdOf : α → Nat)
    (table : List α) (tid : Nat) (h : (table.map threadIdOf).Nodup) :
    ((deleteByThreadId threadIdOf table tid).map threadIdOf).Nodup := by
  unfold deleteByThreadId
  exact h.sublist ((List.filter_sublist table).map threadIdOf)

/-- C9: all four persistence operations preserve the invariant that each
thread id owns at most one bad-thread row and at most one inactive-thread
row: both saves are keyed upserts on `thread_id` that never create a second
row for an existing thread id, and both deletes remove by `thread_id`. -/
theorem C9_per_thread_row_uniqueness
    (badTable : List BadHelpThreadData)
    (inactiveTable : List InactiveHelpThreadData)
    (rb : BadHelpThreadData) (ri : InactiveHelpThreadData) (tb ti : Nat)
    (hb : (badTable.map BadHelpThreadData.thread_id).Nodup)
    (hi : (inactiveTable.map InactiveHelpThreadData.thread_id).Nodup) :
    ((save_bad_help_thread_data badTable rb).map
        BadHelpThreadData.thread_id).Nodup ∧
      ((delete_bad_help_thread_data badTable tb).map
        BadHelpThreadData.thread_id).Nodup ∧
      ((save_inactive_help_thread_data inactiveTable ri).map
        InactiveHelpThreadData.thread_id).Nodup ∧
      ((delete_inactive_help_thread_data inactiveTable ti).map
        InactiveHelpThreadData.thread_id).Nodup :=
  ⟨upsertByThreadId_nodup _ badTable rb hb,
    deleteByThreadId_nodup _ badTable tb hb,
    upsertByThreadId_nodup _ inactiveTable ri hi,
    deleteByThreadId_nodup _ inactiveTable ti hi⟩

/-- C9 witness: the invariant preservation at concrete single-row tables. -/
theorem C9_per_thread_row_uniqueness_witness :
    ((save_bad_help_thread_data [⟨1, 5, ∅⟩] ⟨1, 8, ∅⟩).map
        BadHelpThreadData.thread_id).Nodup ∧
      ((delete_bad_help_thread_data [⟨1, 5, ∅⟩] 1).map
        BadHelpThreadData.thread_id).Nodup ∧
      ((save_inactive_help_thread_data [⟨2, 5, none⟩] ⟨3, 6, some 4⟩).map
        InactiveHelpThreadData.thread_id).Nodup ∧
      ((delete_inactive_help_thread_data [⟨2, 5, none⟩] 9).map
        InactiveHelpThreadData.thread_id).Nodup :=
  C9_per_thread_row_uniqueness [⟨1, 5, ∅⟩] [⟨2, 5, none⟩] ⟨1, 8, ∅⟩
    ⟨3, 6, some 4⟩ 1 9 (by simp) (by simp)

/-- C8 witness: the amended statement at two concrete threads, failing
bodies for the catch-all sweeps, and NotFound-failing starter fetches. -/
theorem C8_sweep_error_isolation_witness :
    inactive_alert_sweep (fun _ => .error .forbidden) [1, 2] = .ok [1, 2] ∧
      archive_timeout_sweep (fun _ => .error .serverError) [1, 2]
        = .ok [1, 2] ∧
      delete_without_starter_sweep (fun _ => .error .notFound) [1, 2]
        = .ok [1, 2] :=
  C8_sweep_error_isolation (fun _ => .error .forbidden)
    (fun _ => .error .serverError) (fun _ => .error .notFound) [1, 2]
    (by
      intro t _ e he
      injection he with h
      exact h.symm)

end HelpForumsPre
